import Mathlib

/-!
Shallow embedding of the quota-limiter / failover-pool core of the PyGPTs
repository (`PyGPTs/Gemini/limiter.py` and `PyGPTs/Gemini/clients_manager.py`).

Modelling conventions:
* Python integers are arbitrary precision, so counters and token arguments are `Int`.
* Wall-clock time (`time.time()`) is an explicit `Int` parameter `now`
  (seconds); `time.sleep` in the non-raising minute branch advances the clock
  to `start_time + 60`, which is exactly the instant Python resumes at.
* Calendar dates in the reference time zone are an explicit `Int` day index
  `today`; `GeminiLimiterSettings.__init__` truncates its `limit_day` datetime
  to a date in that zone, so the settings and the limiter store the day index
  directly.
* A Python method that mutates `self` and may raise is embedded as a function
  `... -> State × Option Error`: the returned state is the object's state after
  the call, whether or not an exception was raised (mutations made before the
  raise persist on the object, as in Python).
-/

namespace PyGPTs

/-- The three limiter exception kinds of `PyGPTs/Gemini/errors.py`. -/
inductive GeminiError where
  | dayLimit
  | minuteLimit
  | contextLimit
  deriving DecidableEq, Repr

/-- Built-in Python exceptions raised by the embedded code. -/
inductive PyError where
  | valueError
  | indexError
  | zeroDivisionError
  deriving DecidableEq, Repr

/-- State of `GeminiLimiter` (`limiter.py`). `limit_day` is a day index in the
reference time zone; `start_time` is the minute-window start timestamp. -/
structure GeminiLimiter where
  limit_day : Int
  request_per_day_used : Int
  request_per_day_limit : Int
  request_per_minute_limit : Int
  tokens_per_minute_limit : Int
  context_used : Int
  context_limit : Int
  raise_error_on_minute_limit : Bool
  request_per_minute_used : Int
  tokens_per_minute_used : Int
  start_time : Int
  deriving DecidableEq, Repr

/-- The fields of `GeminiLimiterSettings` (`limiter.py`), with `limit_day`
already truncated to a day index as the Python constructor does. -/
structure GeminiLimiterSettings where
  limit_day : Int
  request_per_day_used : Int
  request_per_day_limit : Int
  request_per_minute_limit : Int
  tokens_per_minute_limit : Int
  context_used : Int
  context_limit : Int
  raise_error_on_minute_limit : Bool
  deriving DecidableEq, Repr

namespace GeminiLimiter

/-- `GeminiLimiter.__init__`: copy the settings, zero the minute counters,
stamp the minute window with the current time. -/
def ofSettings (now : Int) (t : GeminiLimiterSettings) : GeminiLimiter where
  limit_day := t.limit_day
  request_per_day_used := t.request_per_day_used
  request_per_day_limit := t.request_per_day_limit
  request_per_minute_limit := t.request_per_minute_limit
  tokens_per_minute_limit := t.tokens_per_minute_limit
  context_used := t.context_used
  context_limit := t.context_limit
  raise_error_on_minute_limit := t.raise_error_on_minute_limit
  request_per_minute_used := 0
  tokens_per_minute_used := 0
  start_time := now

/-- `GeminiLimiter.has_minute_limits`. -/
def has_minute_limits (s : GeminiLimiter) : Bool :=
  decide (s.request_per_minute_used < s.request_per_minute_limit)
    && decide (s.tokens_per_minute_used < s.tokens_per_minute_limit)

/-- `GeminiLimiter.restart_minute_counters`. -/
def restart_minute_counters (now last_tokens : Int) (s : GeminiLimiter) : GeminiLimiter :=
  { s with
    request_per_minute_used := 1
    tokens_per_minute_used := last_tokens
    start_time := now }

/-- `GeminiLimiter.minute_exceeded`. -/
def minute_exceeded (now : Int) (s : GeminiLimiter) : Bool :=
  decide (now - s.start_time ≥ 60)

/-- `GeminiLimiter.restart_day_counters`. -/
def restart_day_counters (today : Int) (s : GeminiLimiter) : GeminiLimiter :=
  { s with
    request_per_day_used := 1
    limit_day := today }

/-- `GeminiLimiter.has_context`. -/
def has_context (s : GeminiLimiter) : Bool :=
  decide (s.context_used < s.context_limit)

/-- `GeminiLimiter.has_day_limits`. -/
def has_day_limits (s : GeminiLimiter) : Bool :=
  decide (s.request_per_day_used < s.request_per_day_limit)

/-- `GeminiLimiter.limit_day_exceeded`. -/
def limit_day_exceeded (today : Int) (s : GeminiLimiter) : Bool :=
  decide (today ≠ s.limit_day)

/-- The minute-window portion of `GeminiLimiter.check_limits` (lines 236-246
of `limiter.py`), run on the state after the optional day rollover.  In the
blocking branch Python sleeps until the minute boundary and then restarts the
minute window at that instant, `start_time + 60`. -/
def minute_phase (now last_tokens : Int) (s1 : GeminiLimiter) :
    GeminiLimiter × Option GeminiError :=
  if minute_exceeded now s1 then
    (restart_minute_counters now last_tokens s1, none)
  else if !has_minute_limits s1 then
    if s1.raise_error_on_minute_limit then (s1, some .minuteLimit)
    else (restart_minute_counters (s1.start_time + 60) last_tokens s1, none)
  else
    (s1, none)

/-- `GeminiLimiter.check_limits`: day-exhaustion check (on the possibly stale
day window), context check, optional day rollover, then the minute phase.
Note the source has no early return after `restart_day_counters`; the call
falls through to the minute checks. -/
def check_limits (now today last_tokens : Int) (s : GeminiLimiter) :
    GeminiLimiter × Option GeminiError :=
  if !limit_day_exceeded today s && !has_day_limits s then
    (s, some .dayLimit)
  else if !has_context s then
    (s, some .contextLimit)
  else
    minute_phase now last_tokens
      (if limit_day_exceeded today s then restart_day_counters today s else s)

/-- `GeminiLimiter.add_context`. -/
def add_context (tokens : Int) (s : GeminiLimiter) : GeminiLimiter × Option GeminiError :=
  if s.context_used + tokens > s.context_limit then (s, some .contextLimit)
  else ({ s with context_used := s.context_used + tokens }, none)

/-- The tail of `GeminiLimiter.add_data` after the counter increments:
`add_context` then `check_limits`; an exception from either propagates,
leaving the already-performed mutations in place. -/
def add_data_tail (now today tokens : Int) (s1 : GeminiLimiter) :
    GeminiLimiter × Option GeminiError :=
  match add_context tokens s1 with
  | (s2, some e) => (s2, some e)
  | (s2, none) => check_limits now today tokens s2

/-- `GeminiLimiter.add_data`: increment the day/minute counters, then
`add_context`, then `check_limits`. -/
def add_data (now today tokens : Int) (s : GeminiLimiter) : GeminiLimiter × Option GeminiError :=
  add_data_tail now today tokens
    { s with
      request_per_day_used := s.request_per_day_used + 1
      request_per_minute_used := s.request_per_minute_used + 1
      tokens_per_minute_used := s.tokens_per_minute_used + tokens }

/-- `GeminiLimiter.decrease_context`. -/
def decrease_context (tokens : Int) (s : GeminiLimiter) : GeminiLimiter × Option PyError :=
  if s.context_used - tokens < 0 then (s, some .valueError)
  else ({ s with context_used := s.context_used - tokens }, none)

/-- The `limiter_settings` property getter: snapshot the settings fields. -/
def limiter_settings (s : GeminiLimiter) : GeminiLimiterSettings where
  limit_day := s.limit_day
  request_per_day_used := s.request_per_day_used
  request_per_day_limit := s.request_per_day_limit
  request_per_minute_limit := s.request_per_minute_limit
  tokens_per_minute_limit := s.tokens_per_minute_limit
  context_used := s.context_used
  context_limit := s.context_limit
  raise_error_on_minute_limit := s.raise_error_on_minute_limit

/-- The `limiter_settings` property setter: assign every settings field, zero
the minute counters and restart the minute timer. -/
def set_limiter_settings (now : Int) (t : GeminiLimiterSettings) (_s : GeminiLimiter) :
    GeminiLimiter where
  limit_day := t.limit_day
  request_per_day_used := t.request_per_day_used
  request_per_day_limit := t.request_per_day_limit
  request_per_minute_limit := t.request_per_minute_limit
  tokens_per_minute_limit := t.tokens_per_minute_limit
  context_used := t.context_used
  context_limit := t.context_limit
  raise_error_on_minute_limit := t.raise_error_on_minute_limit
  request_per_minute_used := 0
  tokens_per_minute_used := 0
  start_time := now

end GeminiLimiter

/-- A `GeminiClient` (`client.py`) as the pool sees it: its API key and
whether its limiter still has daily quota (`has_day_limits` is delegated to
the client's limiter; the pool never inspects anything else). -/
structure GeminiClient where
  api_key : String
  day_quota : Bool
  deriving DecidableEq, Repr

/-- State of `GeminiClientsManager` (`clients_manager.py`): the backend list
and the current selection, which Python stores as `None` or an `int` (any
`int`, possibly negative or out of range). -/
structure GeminiClientsManager where
  clients : List GeminiClient
  current_model_index : Option Int
  deriving DecidableEq, Repr

/-- Python list subscription `l[i]`: non-negative indices from the front,
negative indices from the end, `none` for the `IndexError` cases. -/
def pyListGet (l : List GeminiClient) (i : Int) : Option GeminiClient :=
  if 0 ≤ i then l.get? i.toNat
  else if 0 ≤ i + (l.length : Int) then l.get? (i + (l.length : Int)).toNat
  else none

namespace GeminiClientsManager

/-- Scan of `GeminiClientsManager.get_client_index` starting at index `i`. -/
def get_client_index_from (key : String) : List GeminiClient → Int → Option Int
  | [], _ => none
  | c :: rest, i => if c.api_key = key then some i else get_client_index_from key rest (i + 1)

/-- `GeminiClientsManager.get_client_index`. -/
def get_client_index (key : String) (m : GeminiClientsManager) : Option Int :=
  get_client_index_from key m.clients 0

/-- Scan of `GeminiClientsManager.lowest_useful_client_index` from index `i`. -/
def lowest_useful_from : List GeminiClient → Int → Option Int
  | [], _ => none
  | c :: rest, i => if c.day_quota then some i else lowest_useful_from rest (i + 1)

/-- `GeminiClientsManager.lowest_useful_client_index`. -/
def lowest_useful_client_index (m : GeminiClientsManager) : Option Int :=
  lowest_useful_from m.clients 0

/-- `GeminiClientsManager.__init__` from an already-built client list. -/
def ofClients (cs : List GeminiClient) : GeminiClientsManager :=
  { clients := cs
    current_model_index := lowest_useful_from cs 0 }

/-- `GeminiClientsManager.client`: raises `ValueError` when both arguments are
given; otherwise updates `current_model_index` as the source does and returns
`self.clients[self.current_model_index]` (Python subscription, so a negative
stored index resolves from the end or raises `IndexError`), or `none` when the
selection is `None`. -/
def client (model_index : Option Int) (model_api_key : Option String)
    (m : GeminiClientsManager) : GeminiClientsManager × Except PyError (Option GeminiClient) :=
  if model_index.isSome && model_api_key.isSome then
    (m, .error .valueError)
  else
    let m1 :=
      match model_api_key with
      | some k => { m with current_model_index := get_client_index k m }
      | none =>
        match model_index with
        | some i =>
          { m with
            current_model_index := if i < (m.clients.length : Int) then some i else none }
        | none => m
    match m1.current_model_index with
    | none => (m1, .ok none)
    | some i =>
      match pyListGet m1.clients i with
      | some c => (m1, .ok (some c))
      | none => (m1, .error .indexError)

/-- `GeminiClientsManager.next_client`: `(current + 1) % len(self.clients)`
(Python `%`, which on a positive modulus agrees with `Int.emod` and raises
`ZeroDivisionError` on modulus `0`), or `0` when the selection is `None`, then
`self.client()`. -/
def next_client (m : GeminiClientsManager) :
    GeminiClientsManager × Except PyError (Option GeminiClient) :=
  match m.current_model_index with
  | some c =>
    if m.clients.length = 0 then (m, .error .zeroDivisionError)
    else
      client none none
        { m with current_model_index := some ((c + 1) % (m.clients.length : Int)) }
  | none => client none none { m with current_model_index := some 0 }

end GeminiClientsManager

/-- A call in a sequence of context-touching limiter operations: either
`add_context(tokens)` or `add_data(tokens)` (the latter at some wall-clock
time and date). -/
inductive LimiterOp where
  | addContextOp (tokens : Int)
  | recordUsageOp (now today tokens : Int)
  deriving DecidableEq, Repr

/-- Run one `LimiterOp`, returning the limiter's state after the call and the
exception, if any. -/
def applyOp : LimiterOp → GeminiLimiter → GeminiLimiter × Option GeminiError
  | .addContextOp t, s => GeminiLimiter.add_context t s
  | .recordUsageOp now today t, s => GeminiLimiter.add_data now today t s

/-- Run a sequence of limiter operations, threading the object's state through
every call (in Python the object survives a raised exception with its
mutations intact, so the next call starts from that state). -/
def runOps : List LimiterOp → GeminiLimiter → GeminiLimiter
  | [], s => s
  | op :: rest, s => runOps rest (applyOp op s).1

/-- The index formula the spec gives for `next()`:
`(current + 1) mod N`, or `0` if the selection was none. -/
def nextIndex (m : GeminiClientsManager) : Int :=
  match m.current_model_index with
  | some c => (c + 1) % (m.clients.length : Int)
  | none => 0

/-- The settings of the spec's concrete scenario: limits 10/2/100, context
limit 1000, fresh counters, raise-on-minute-limit true, day window = day 0. -/
def scenarioSettings : GeminiLimiterSettings where
  limit_day := 0
  request_per_day_used := 0
  request_per_day_limit := 10
  request_per_minute_limit := 2
  tokens_per_minute_limit := 100
  context_used := 0
  context_limit := 1000
  raise_error_on_minute_limit := true

/-- A fresh limiter for the concrete scenario, constructed at time 0. -/
def scenarioLimiter : GeminiLimiter := GeminiLimiter.ofSettings 0 scenarioSettings

/-- The limiter state after the first `add_data 50` of the scenario. -/
def scenarioAfterFirst : GeminiLimiter :=
  (GeminiLimiter.add_data 0 0 50 scenarioLimiter).1

/-- The limiter state after the second `add_data 50` of the scenario. -/
def scenarioAfterSecond : GeminiLimiter :=
  (GeminiLimiter.add_data 0 0 50 scenarioAfterFirst).1

/-- A limiter whose day window (day 0) has expired relative to day 1, whose
context budget is fine, and whose minute quota is exhausted inside a live
minute window with the raise flag set. -/
def dayRolloverState : GeminiLimiter where
  limit_day := 0
  request_per_day_used := 5
  request_per_day_limit := 10
  request_per_minute_limit := 2
  tokens_per_minute_limit := 100
  context_used := 0
  context_limit := 1000
  raise_error_on_minute_limit := true
  request_per_minute_used := 2
  tokens_per_minute_used := 0
  start_time := 0

/-- A limiter used to instantiate the minute-rollover property: minute window
started at time 0, minute counters saturated. -/
def minuteRolloverState : GeminiLimiter where
  limit_day := 0
  request_per_day_used := 0
  request_per_day_limit := 10
  request_per_minute_limit := 2
  tokens_per_minute_limit := 100
  context_used := 0
  context_limit := 1000
  raise_error_on_minute_limit := true
  request_per_minute_used := 7
  tokens_per_minute_used := 999
  start_time := 0

/-- A limiter with zero context budget, for the negative-decrease observation. -/
def zeroContextState : GeminiLimiter where
  limit_day := 0
  request_per_day_used := 0
  request_per_day_limit := 10
  request_per_minute_limit := 2
  tokens_per_minute_limit := 100
  context_used := 0
  context_limit := 0
  raise_error_on_minute_limit := true
  request_per_minute_used := 0
  tokens_per_minute_used := 0
  start_time := 0

/-- A limiter with some context in use, for instantiating the decrease rules. -/
def someContextState : GeminiLimiter where
  limit_day := 0
  request_per_day_used := 0
  request_per_day_limit := 10
  request_per_minute_limit := 2
  tokens_per_minute_limit := 100
  context_used := 3
  context_limit := 1000
  raise_error_on_minute_limit := true
  request_per_minute_used := 0
  tokens_per_minute_used := 0
  start_time := 0

/-- A three-backend pool with current selection 0. -/
def threePool : GeminiClientsManager where
  clients :=
    [ { api_key := "a", day_quota := true },
      { api_key := "b", day_quota := true },
      { api_key := "c", day_quota := true } ]
  current_model_index := some 0

namespace GeminiLimiter

/-- The minute phase never touches the context fields. -/
theorem minute_phase_context (now t : Int) (s1 : GeminiLimiter) :
    (minute_phase now t s1).1.context_used = s1.context_used ∧
    (minute_phase now t s1).1.context_limit = s1.context_limit := by
  unfold minute_phase restart_minute_counters
  split
  · exact ⟨rfl, rfl⟩
  · split
    · split
      · exact ⟨rfl, rfl⟩
      · exact ⟨rfl, rfl⟩
    · exact ⟨rfl, rfl⟩

/-- `check_limits` never touches the context fields. -/
theorem check_limits_context (now today t : Int) (s : GeminiLimiter) :
    (check_limits now today t s).1.context_used = s.context_used ∧
    (check_limits now today t s).1.context_limit = s.context_limit := by
  unfold check_limits
  split
  · exact ⟨rfl, rfl⟩
  · split
    · exact ⟨rfl, rfl⟩
    · split
      · exact minute_phase_context now t _
      · exact minute_phase_context now t _

/-- `add_context` on an over-budget addition: raise, state unchanged. -/
theorem add_context_over (t : Int) (s : GeminiLimiter)
    (h : s.context_limit < s.context_used + t) :
    add_context t s = (s, some .contextLimit) := by
  unfold add_context
  rw [if_pos h]

/-- `add_context` within budget: add, no exception. -/
theorem add_context_ok (t : Int) (s : GeminiLimiter)
    (h : s.context_used + t ≤ s.context_limit) :
    add_context t s = ({ s with context_used := s.context_used + t }, none) := by
  unfold add_context
  rw [if_neg (not_lt.mpr h)]

/-- `add_data_tail` on an over-budget addition: raise from `add_context`,
state unchanged from the increments. -/
theorem add_data_tail_over (now today t : Int) (s1 : GeminiLimiter)
    (hc : s1.context_limit < s1.context_used + t) :
    add_data_tail now today t s1 = (s1, some .contextLimit) := by
  unfold add_data_tail
  rw [add_context_over t s1 hc]

/-- `add_data_tail` within context budget runs `check_limits` on the state
with the context added. -/
theorem add_data_tail_ok (now today t : Int) (s1 : GeminiLimiter)
    (hc : s1.context_used + t ≤ s1.context_limit) :
    add_data_tail now today t s1 =
      check_limits now today t { s1 with context_used := s1.context_used + t } := by
  unfold add_data_tail
  rw [add_context_ok t s1 hc]

/-- `add_data_tail` keeps `context_used ≤ context_limit` when it held. -/
theorem add_data_tail_context_le (now today t : Int) (s1 : GeminiLimiter)
    (h : s1.context_used ≤ s1.context_limit) :
    (add_data_tail now today t s1).1.context_used ≤
      (add_data_tail now today t s1).1.context_limit := by
  by_cases hc : s1.context_limit < s1.context_used + t
  · rw [add_data_tail_over now today t s1 hc]
    exact h
  · rw [add_data_tail_ok now today t s1 (not_lt.mp hc)]
    obtain ⟨e1, e2⟩ :=
      check_limits_context now today t { s1 with context_used := s1.context_used + t }
    rw [e1, e2]
    exact not_lt.mp hc

/-- `add_data` keeps `context_used ≤ context_limit` when it held before. -/
theorem add_data_context_le (now today t : Int) (s : GeminiLimiter)
    (h : s.context_used ≤ s.context_limit) :
    (add_data now today t s).1.context_used ≤ (add_data now today t s).1.context_limit := by
  unfold add_data
  exact add_data_tail_context_le now today t _ h

end GeminiLimiter

/-- One limiter call keeps `context_used ≤ context_limit`. -/
theorem applyOp_context_le (op : LimiterOp) (s : GeminiLimiter)
    (h : s.context_used ≤ s.context_limit) :
    (applyOp op s).1.context_used ≤ (applyOp op s).1.context_limit := by
  cases op with
  | addContextOp t =>
    show (GeminiLimiter.add_context t s).1.context_used ≤
      (GeminiLimiter.add_context t s).1.context_limit
    by_cases hc : s.context_limit < s.context_used + t
    · rw [GeminiLimiter.add_context_over t s hc]
      exact h
    · rw [GeminiLimiter.add_context_ok t s (not_lt.mp hc)]
      exact not_lt.mp hc
  | recordUsageOp now today t =>
    exact GeminiLimiter.add_data_context_le now today t s h

/-- Python subscription at a non-negative index. -/
theorem pyListGet_nonneg (l : List GeminiClient) (i : Int) (h : 0 ≤ i) :
    pyListGet l i = l.get? i.toNat := by
  unfold pyListGet
  rw [if_pos h]

/-- Python subscription at a negative index that reaches back into the list. -/
theorem pyListGet_neg (l : List GeminiClient) (i : Int) (h1 : i < 0)
    (h2 : 0 ≤ i + (l.length : Int)) :
    pyListGet l i = l.get? (i + (l.length : Int)).toNat := by
  unfold pyListGet
  rw [if_neg (not_le.mpr h1), if_pos h2]

/-- Python subscription at a negative index before the start of the list. -/
theorem pyListGet_oob_neg (l : List GeminiClient) (i : Int)
    (h2 : i + (l.length : Int) < 0) :
    pyListGet l i = none := by
  have h1 : ¬ (0 : Int) ≤ i := by omega
  unfold pyListGet
  rw [if_neg h1, if_neg (not_le.mpr h2)]

/-- An in-range index yields an element. -/
theorem get?_some_of_lt (l : List GeminiClient) (n : Nat) (h : n < l.length) :
    ∃ c, l.get? n = some c :=
  ⟨l.get ⟨n, h⟩, List.get?_eq_get h⟩

/-- Claim C4: over every sequence of `add_context`/`add_data` calls starting
from a state with `context_used ≤ context_limit`, `context_used` never
exceeds `context_limit`; and any single call whose context addition would
push `context_used` past `context_limit` raises `ContextLimitExceeded` and
leaves `context_used` unchanged. -/
theorem C4_context_invariant :
    (∀ (ops : List LimiterOp) (s : GeminiLimiter),
        s.context_used ≤ s.context_limit →
        (runOps ops s).context_used ≤ (runOps ops s).context_limit) ∧
    (∀ (t : Int) (s : GeminiLimiter),
        s.context_limit < s.context_used + t →
        GeminiLimiter.add_context t s = (s, some GeminiError.contextLimit)) ∧
    (∀ (now today t : Int) (s : GeminiLimiter),
        s.context_limit < s.context_used + t →
        (GeminiLimiter.add_data now today t s).2 = some GeminiError.contextLimit ∧
        (GeminiLimiter.add_data now today t s).1.context_used = s.context_used) := by
  refine ⟨?_, ?_, ?_⟩
  · intro ops
    induction ops with
    | nil => intro s h; exact h
    | cons op rest ih =>
      intro s h
      exact ih _ (applyOp_context_le op s h)
  · intro t s h
    exact GeminiLimiter.add_context_over t s h
  · intro now today t s h
    unfold GeminiLimiter.add_data
    rw [GeminiLimiter.add_data_tail_over now today t
      { s with
        request_per_day_used := s.request_per_day_used + 1
        request_per_minute_used := s.request_per_minute_used + 1
        tokens_per_minute_used := s.tokens_per_minute_used + t } h]
    exact ⟨rfl, rfl⟩

/-- Witness for C4 at concrete inputs. -/
theorem C4_context_invariant_witness :
    ((runOps [LimiterOp.addContextOp 5] scenarioLimiter).context_used ≤
        (runOps [LimiterOp.addContextOp 5] scenarioLimiter).context_limit) ∧
    (GeminiLimiter.add_context 2000 scenarioLimiter =
        (scenarioLimiter, some GeminiError.contextLimit)) ∧
    ((GeminiLimiter.add_data 0 0 2000 scenarioLimiter).2 = some GeminiError.contextLimit ∧
      (GeminiLimiter.add_data 0 0 2000 scenarioLimiter).1.context_used =
        scenarioLimiter.context_used) :=
  ⟨C4_context_invariant.1 [LimiterOp.addContextOp 5] scenarioLimiter (by decide),
    C4_context_invariant.2.1 2000 scenarioLimiter (by decide),
    C4_context_invariant.2.2 0 0 2000 scenarioLimiter (by decide)⟩

/-- Claim C6: exporting the limiter settings and assigning them back
preserves the day-window date, the day counter, the three limits, the
context usage and the raise flag, while the per-minute used counters are
reset to 0 and the minute window is restarted. -/
theorem C6_settings_round_trip (s : GeminiLimiter) (now : Int) :
    (GeminiLimiter.set_limiter_settings now (GeminiLimiter.limiter_settings s) s).limit_day
        = s.limit_day ∧
    (GeminiLimiter.set_limiter_settings now (GeminiLimiter.limiter_settings s) s).request_per_day_used
        = s.request_per_day_used ∧
    (GeminiLimiter.set_limiter_settings now (GeminiLimiter.limiter_settings s) s).request_per_day_limit
        = s.request_per_day_limit ∧
    (GeminiLimiter.set_limiter_settings now (GeminiLimiter.limiter_settings s) s).request_per_minute_limit
        = s.request_per_minute_limit ∧
    (GeminiLimiter.set_limiter_settings now (GeminiLimiter.limiter_settings s) s).tokens_per_minute_limit
        = s.tokens_per_minute_limit ∧
    (GeminiLimiter.set_limiter_settings now (GeminiLimiter.limiter_settings s) s).context_used
        = s.context_used ∧
    (GeminiLimiter.set_limiter_settings now (GeminiLimiter.limiter_settings s) s).context_limit
        = s.context_limit ∧
    (GeminiLimiter.set_limiter_settings now (GeminiLimiter.limiter_settings s) s).raise_error_on_minute_limit
        = s.raise_error_on_minute_limit ∧
    (GeminiLimiter.set_limiter_settings now (GeminiLimiter.limiter_settings s) s).request_per_minute_used
        = 0 ∧
    (GeminiLimiter.set_limiter_settings now (GeminiLimiter.limiter_settings s) s).tokens_per_minute_used
        = 0 ∧
    (GeminiLimiter.set_limiter_settings now (GeminiLimiter.limiter_settings s) s).start_time
        = now :=
  ⟨rfl, rfl, rfl, rfl, rfl, rfl, rfl, rfl, rfl, rfl, rfl⟩

/-- Claim C7: `decrease_context t` with `t` above the current context usage
fails with a `ValueError` and leaves the whole state unchanged; with
`t ≤ context_used` it subtracts `t`. -/
theorem C7_decrease_context (s : GeminiLimiter) (t : Int) :
    (s.context_used < t →
      GeminiLimiter.decrease_context t s = (s, some PyError.valueError)) ∧
    (t ≤ s.context_used →
      GeminiLimiter.decrease_context t s =
        ({ s with context_used := s.context_used - t }, none)) := by
  constructor
  · intro h
    unfold GeminiLimiter.decrease_context
    rw [if_pos (by omega)]
  · intro h
    unfold GeminiLimiter.decrease_context
    rw [if_neg (by omega)]

/-- Witness for C7 at concrete inputs. -/
theorem C7_decrease_context_witness :
    (GeminiLimiter.decrease_context 5 someContextState =
        (someContextState, some PyError.valueError)) ∧
    (GeminiLimiter.decrease_context 1 someContextState =
        ({ someContextState with context_used := someContextState.context_used - 1 }, none)) :=
  ⟨(C7_decrease_context someContextState 5).1 (by decide),
    (C7_decrease_context someContextState 1).2 (by decide)⟩

/-- Claim C8: `decrease_context` does not check the sign of its argument:
from a state with `context_used ≤ context_limit`, a negative argument can
succeed and leave `context_used` strictly above `context_limit`. -/
theorem C8_decrease_context_negative :
    ∃ (s : GeminiLimiter) (t : Int),
      s.context_used ≤ s.context_limit ∧ t < 0 ∧
      (GeminiLimiter.decrease_context t s).2 = none ∧
      (GeminiLimiter.decrease_context t s).1.context_limit <
        (GeminiLimiter.decrease_context t s).1.context_used := by
  refine ⟨zeroContextState, -1, ?_, ?_, ?_, ?_⟩ <;> decide

/-- Counterexample to claim C1 as stated: in the concrete scenario the second
`add_data 50` call does not return normally — it already raises
`MinuteLimitExceeded`, because the admission check runs after the increments
and uses strict inequalities, so `request_per_minute_used = 2` at the limit 2
fails the check. -/
theorem C1_counterexample :
    (GeminiLimiter.add_data 0 0 50 scenarioAfterFirst).2 = some GeminiError.minuteLimit ∧
    (GeminiLimiter.add_data 0 0 50 scenarioAfterFirst).2 ≠ none := by
  decide

/-- Claim C1 (amended): with
`requestsPerDayLimit=10, requestsPerMinuteLimit=2, tokensPerMinuteLimit=100,
contextLimit=1000, raiseOnMinuteLimit=true`, the first `recordUsage(50)`
returns normally leaving `contextUsed=50, requestsPerDayUsed=1,
requestsPerMinuteUsed=1, tokensPerMinuteUsed=50`; the second `recordUsage(50)`
is still recorded (`requestsPerMinuteUsed=2, tokensPerMinuteUsed=100,
contextUsed=100`) but raises `MinuteLimitExceeded`, as does the third
immediate call: post-increment checking with strict inequalities makes the
limit bite one call earlier than the claim says. -/
theorem C1_amended_scenario :
    (GeminiLimiter.add_data 0 0 50 scenarioLimiter).2 = none ∧
    scenarioAfterFirst.context_used = 50 ∧
    scenarioAfterFirst.request_per_day_used = 1 ∧
    scenarioAfterFirst.request_per_minute_used = 1 ∧
    scenarioAfterFirst.tokens_per_minute_used = 50 ∧
    (GeminiLimiter.add_data 0 0 50 scenarioAfterFirst).2 = some GeminiError.minuteLimit ∧
    scenarioAfterSecond.request_per_minute_used = 2 ∧
    scenarioAfterSecond.tokens_per_minute_used = 100 ∧
    scenarioAfterSecond.context_used = 100 ∧
    (GeminiLimiter.add_data 0 0 50 scenarioAfterSecond).2 = some GeminiError.minuteLimit := by
  decide

/-- Counterexample to claim C2 as stated: with the day window expired and the
context budget fine, `check_limits` does not always return admitted — the
source has no early return after the day rollover, so with the minute quota
exhausted inside a live minute window and the raise flag set it raises
`MinuteLimitExceeded` (after performing the day rollover). -/
theorem C2_counterexample :
    GeminiLimiter.limit_day_exceeded 1 dayRolloverState = true ∧
    GeminiLimiter.has_context dayRolloverState = true ∧
    (GeminiLimiter.check_limits 0 1 10 dayRolloverState).2 = some GeminiError.minuteLimit ∧
    (GeminiLimiter.check_limits 0 1 10 dayRolloverState).2 ≠ none := by
  decide

/-- Claim C2 (amended): when the day window has expired and the context budget
is not exhausted, `check_limits` sets `limit_day` to today and
`request_per_day_used` to 1, and then falls through to the minute checks: it
returns admitted unless the minute window is unexpired, the minute quota is
exhausted and `raise_error_on_minute_limit` is true, in which case it raises
`MinuteLimitExceeded` with the day rollover already applied. -/
theorem C2_day_rollover_amended (s : GeminiLimiter) (now today T : Int)
    (h1 : GeminiLimiter.limit_day_exceeded today s = true)
    (h2 : GeminiLimiter.has_context s = true) :
    (GeminiLimiter.check_limits now today T s).1.limit_day = today ∧
    (GeminiLimiter.check_limits now today T s).1.request_per_day_used = 1 ∧
    (GeminiLimiter.check_limits now today T s).2 =
      (if !GeminiLimiter.minute_exceeded now s && !GeminiLimiter.has_minute_limits s
          && s.raise_error_on_minute_limit
        then some GeminiError.minuteLimit else none) := by
  have e1 : GeminiLimiter.minute_exceeded now (GeminiLimiter.restart_day_counters today s)
      = GeminiLimiter.minute_exceeded now s := rfl
  have e2 : GeminiLimiter.has_minute_limits (GeminiLimiter.restart_day_counters today s)
      = GeminiLimiter.has_minute_limits s := rfl
  have e3 : (GeminiLimiter.restart_day_counters today s).raise_error_on_minute_limit
      = s.raise_error_on_minute_limit := rfl
  have f1 : (GeminiLimiter.restart_day_counters today s).limit_day = today := rfl
  have f2 : (GeminiLimiter.restart_day_counters today s).request_per_day_used = 1 := rfl
  have g1 : ∀ (a b : Int) (t1 : GeminiLimiter),
      (GeminiLimiter.restart_minute_counters a b t1).limit_day = t1.limit_day :=
    fun _ _ _ => rfl
  have g2 : ∀ (a b : Int) (t1 : GeminiLimiter),
      (GeminiLimiter.restart_minute_counters a b t1).request_per_day_used
        = t1.request_per_day_used :=
    fun _ _ _ => rfl
  cases hme : GeminiLimiter.minute_exceeded now s <;>
    cases hml : GeminiLimiter.has_minute_limits s <;>
      cases hr : s.raise_error_on_minute_limit <;>
        simp [GeminiLimiter.check_limits, GeminiLimiter.minute_phase, h1, h2, e1, e2, e3, f1,
          f2, g1, g2, hme, hml, hr]

/-- Witness for C2 (amended) at a concrete input. -/
theorem C2_day_rollover_amended_witness :
    (GeminiLimiter.check_limits 0 1 10 dayRolloverState).1.limit_day = 1 ∧
    (GeminiLimiter.check_limits 0 1 10 dayRolloverState).1.request_per_day_used = 1 ∧
    (GeminiLimiter.check_limits 0 1 10 dayRolloverState).2 =
      (if !GeminiLimiter.minute_exceeded 0 dayRolloverState
          && !GeminiLimiter.has_minute_limits dayRolloverState
          && dayRolloverState.raise_error_on_minute_limit
        then some GeminiError.minuteLimit else none) :=
  C2_day_rollover_amended dayRolloverState 0 1 10 (by decide) (by decide)

/-- Claim C5: when the day-exhaustion check and the context check pass and at
least 60 seconds have elapsed since the minute window started, `check_limits`
admits the request and sets `request_per_minute_used = 1`,
`tokens_per_minute_used = T` and `start_time = now`, whatever the prior
minute counters were. -/
theorem C5_minute_rollover (s : GeminiLimiter) (now today T : Int)
    (h1 : GeminiLimiter.limit_day_exceeded today s = true
        ∨ GeminiLimiter.has_day_limits s = true)
    (h2 : GeminiLimiter.has_context s = true)
    (h3 : 60 ≤ now - s.start_time) :
    (GeminiLimiter.check_limits now today T s).2 = none ∧
    (GeminiLimiter.check_limits now today T s).1.request_per_minute_used = 1 ∧
    (GeminiLimiter.check_limits now today T s).1.tokens_per_minute_used = T ∧
    (GeminiLimiter.check_limits now today T s).1.start_time = now := by
  have hme : GeminiLimiter.minute_exceeded now s = true := by
    unfold GeminiLimiter.minute_exceeded
    exact decide_eq_true (by omega)
  have hme2 : GeminiLimiter.minute_exceeded now (GeminiLimiter.restart_day_counters today s)
      = true := hme
  cases hd : GeminiLimiter.limit_day_exceeded today s with
  | false =>
    have hdl : GeminiLimiter.has_day_limits s = true := by
      rcases h1 with h | h
      · rw [hd] at h
        exact absurd h (by simp)
      · exact h
    simp [GeminiLimiter.check_limits, GeminiLimiter.minute_phase, hd, hdl, h2, hme,
      GeminiLimiter.restart_minute_counters]
  | true =>
    simp [GeminiLimiter.check_limits, GeminiLimiter.minute_phase, hd, h2, hme2,
      GeminiLimiter.restart_minute_counters]

namespace GeminiClientsManager

/-- `client()` with no arguments and no current selection. -/
theorem client_none_none_none (m : GeminiClientsManager)
    (h : m.current_model_index = none) :
    client none none m = (m, .ok none) := by
  unfold client
  simp [h]

/-- `client()` with no arguments and a selection that subscripts to a client. -/
theorem client_none_none_some (m : GeminiClientsManager) (i : Int) (c : GeminiClient)
    (h : m.current_model_index = some i) (hp : pyListGet m.clients i = some c) :
    client none none m = (m, .ok (some c)) := by
  unfold client
  simp [h, hp]

/-- `client()` with no arguments and a selection whose subscription raises. -/
theorem client_none_none_oob (m : GeminiClientsManager) (i : Int)
    (h : m.current_model_index = some i) (hp : pyListGet m.clients i = none) :
    client none none m = (m, .error .indexError) := by
  unfold client
  simp [h, hp]

/-- `client(model_index := i)` first stores the new selection and then behaves
like a no-argument `client()` call on the updated state. -/
theorem client_some_index_eq (m : GeminiClientsManager) (i : Int) :
    client (some i) none m =
      client none none
        { m with current_model_index :=
            if i < (m.clients.length : Int) then some i else none } := rfl

end GeminiClientsManager

/-- Witness for C5 at a concrete input. -/
theorem C5_minute_rollover_witness :
    (GeminiLimiter.check_limits 60 0 9 minuteRolloverState).2 = none ∧
    (GeminiLimiter.check_limits 60 0 9 minuteRolloverState).1.request_per_minute_used = 1 ∧
    (GeminiLimiter.check_limits 60 0 9 minuteRolloverState).1.tokens_per_minute_used = 9 ∧
    (GeminiLimiter.check_limits 60 0 9 minuteRolloverState).1.start_time = 60 :=
  C5_minute_rollover minuteRolloverState 60 0 9 (Or.inr (by decide)) (by decide) (by decide)

/-- Counterexample to claim C3 as stated: on a three-backend pool,
`client(model_index := -1)` does not set the selection to none — Python's
`model_index < len(self.clients)` holds for every negative index, so the
selection becomes `-1` and the call returns the last backend via negative
subscription. -/
theorem C3_counterexample :
    (GeminiClientsManager.client (some (-1)) none threePool).1.current_model_index
        = some (-1) ∧
    (GeminiClientsManager.client (some (-1)) none threePool).1.current_model_index
        ≠ none ∧
    (GeminiClientsManager.client (some (-1)) none threePool).2
        = Except.ok (some { api_key := "c", day_quota := true }) := by
  refine ⟨rfl, ?_, rfl⟩
  intro hcontra
  exact absurd hcontra (by decide)

/-- Claim C3 (amended): `client(model_index := i)` sets the current selection
to `i` whenever `i < N` — in particular for every negative `i` — and to none
when `i ≥ N`; it then returns the backend at the new selection, with a
negative selection resolving from the end of the list (`clients[N + i]` when
`-N ≤ i < 0`) and raising an index error when `i < -N`, and returns none as a
non-error outcome only when the selection is none (`i ≥ N`). -/
theorem C3_select_index_amended (m : GeminiClientsManager) (i : Int) :
    ((GeminiClientsManager.client (some i) none m).1.current_model_index =
        if i < (m.clients.length : Int) then some i else none) ∧
    ((GeminiClientsManager.client (some i) none m).1.clients = m.clients) ∧
    (0 ≤ i → i < (m.clients.length : Int) →
        (GeminiClientsManager.client (some i) none m).2 =
          Except.ok (m.clients.get? i.toNat)) ∧
    (i < 0 → 0 ≤ i + (m.clients.length : Int) →
        (GeminiClientsManager.client (some i) none m).2 =
          Except.ok (m.clients.get? (i + (m.clients.length : Int)).toNat)) ∧
    (i + (m.clients.length : Int) < 0 →
        (GeminiClientsManager.client (some i) none m).2 = Except.error PyError.indexError) ∧
    ((m.clients.length : Int) ≤ i →
        (GeminiClientsManager.client (some i) none m).2 = Except.ok none) := by
  rw [GeminiClientsManager.client_some_index_eq m i]
  by_cases hiN : i < (m.clients.length : Int)
  · rw [if_pos hiN]
    cases hp : pyListGet m.clients i with
    | none =>
      rw [GeminiClientsManager.client_none_none_oob
        { m with current_model_index := some i } i rfl hp]
      refine ⟨rfl, rfl, ?_, ?_, ?_, ?_⟩
      · intro h0 hlt
        rw [pyListGet_nonneg m.clients i h0] at hp
        obtain ⟨c, hc⟩ := get?_some_of_lt m.clients i.toNat (by omega)
        rw [hc] at hp
        exact absurd hp (by simp)
      · intro hneg h0
        rw [pyListGet_neg m.clients i hneg h0] at hp
        obtain ⟨c, hc⟩ :=
          get?_some_of_lt m.clients (i + (m.clients.length : Int)).toNat (by omega)
        rw [hc] at hp
        exact absurd hp (by simp)
      · intro _
        rfl
      · intro hge
        exact absurd hiN (not_lt.mpr hge)
    | some c =>
      rw [GeminiClientsManager.client_none_none_some
        { m with current_model_index := some i } i c rfl hp]
      refine ⟨rfl, rfl, ?_, ?_, ?_, ?_⟩
      · intro h0 _
        rw [pyListGet_nonneg m.clients i h0] at hp
        rw [hp]
      · intro hneg h0
        rw [pyListGet_neg m.clients i hneg h0] at hp
        rw [hp]
      · intro hoob
        rw [pyListGet_oob_neg m.clients i hoob] at hp
        exact absurd hp (by simp)
      · intro hge
        exact absurd hiN (not_lt.mpr hge)
  · rw [if_neg hiN]
    rw [GeminiClientsManager.client_none_none_none
      { m with current_model_index := none } rfl]
    refine ⟨rfl, rfl, ?_, ?_, ?_, ?_⟩
    · intro _ hlt
      exact absurd hlt hiN
    · intro hneg _
      exact absurd (show i < (m.clients.length : Int) by omega) hiN
    · intro hoob
      exact absurd (show i < (m.clients.length : Int) by omega) hiN
    · intro _
      rfl

/-- Witness for C3 (amended) at concrete inputs on the three-backend pool. -/
theorem C3_select_index_amended_witness :
    ((GeminiClientsManager.client (some 1) none threePool).2 =
        Except.ok (threePool.clients.get? (1 : Int).toNat)) ∧
    ((GeminiClientsManager.client (some (-2)) none threePool).2 =
        Except.ok (threePool.clients.get? ((-2) + (threePool.clients.length : Int)).toNat)) ∧
    ((GeminiClientsManager.client (some (-4)) none threePool).2 =
        Except.error PyError.indexError) ∧
    ((GeminiClientsManager.client (some 3) none threePool).2 = Except.ok none) :=
  ⟨(C3_select_index_amended threePool 1).2.2.1 (by decide) (by decide),
    (C3_select_index_amended threePool (-2)).2.2.2.1 (by decide) (by decide),
    (C3_select_index_amended threePool (-4)).2.2.2.2.1 (by decide),
    (C3_select_index_amended threePool 3).2.2.2.2.2 (by decide)⟩

/-- Claim C9: on a non-empty pool, `next_client` sets the selection to
`(current + 1) mod N` (or 0 when the selection was none) and returns the
backend at the new selection; on the three-backend pool with selection 0 this
is the round-robin 0→1→2→0→…. -/
theorem C9_next_round_robin (m : GeminiClientsManager) (h : 0 < m.clients.length) :
    (GeminiClientsManager.next_client m).1.current_model_index = some (nextIndex m) ∧
    (GeminiClientsManager.next_client m).1.clients = m.clients ∧
    (m.clients.get? (nextIndex m).toNat).isSome = true ∧
    (GeminiClientsManager.next_client m).2 =
      Except.ok (m.clients.get? (nextIndex m).toNat) := by
  cases hcur : m.current_model_index with
  | none =>
    have hni : nextIndex m = 0 := by
      unfold nextIndex
      rw [hcur]
    obtain ⟨c, hc⟩ := get?_some_of_lt m.clients 0 h
    have hp : pyListGet ({ m with current_model_index := some (0 : Int) } :
        GeminiClientsManager).clients 0 = some c := by
      show pyListGet m.clients 0 = some c
      rw [pyListGet_nonneg m.clients 0 le_rfl]
      exact hc
    have hcl := GeminiClientsManager.client_none_none_some
      { m with current_model_index := some 0 } 0 c rfl hp
    simp only [GeminiClientsManager.next_client, hcur, hcl]
    rw [hni]
    refine ⟨rfl, by trivial, ?_, ?_⟩
    · show (m.clients.get? (0 : Nat)).isSome = true
      rw [hc]
      rfl
    · show Except.ok (some c) = Except.ok (m.clients.get? (0 : Nat))
      rw [hc]
  | some k =>
    have hlen0 : m.clients.length ≠ 0 := Nat.pos_iff_ne_zero.mp h
    have hj0 : 0 ≤ (k + 1) % (m.clients.length : Int) :=
      Int.emod_nonneg _ (by exact_mod_cast hlen0)
    have hjN : (k + 1) % (m.clients.length : Int) < (m.clients.length : Int) :=
      Int.emod_lt_of_pos _ (by exact_mod_cast h)
    have hjt : ((k + 1) % (m.clients.length : Int)).toNat < m.clients.length := by omega
    obtain ⟨c, hc⟩ := get?_some_of_lt m.clients ((k + 1) % (m.clients.length : Int)).toNat hjt
    have hni : nextIndex m = (k + 1) % (m.clients.length : Int) := by
      unfold nextIndex
      rw [hcur]
    have hp : pyListGet ({ m with
        current_model_index := some ((k + 1) % (m.clients.length : Int)) } :
        GeminiClientsManager).clients ((k + 1) % (m.clients.length : Int)) = some c := by
      show pyListGet m.clients ((k + 1) % (m.clients.length : Int)) = some c
      rw [pyListGet_nonneg m.clients _ hj0]
      exact hc
    have hcl := GeminiClientsManager.client_none_none_some
      { m with current_model_index := some ((k + 1) % (m.clients.length : Int)) }
      ((k + 1) % (m.clients.length : Int)) c rfl hp
    simp only [GeminiClientsManager.next_client, hcur, if_neg hlen0, hcl]
    rw [hni]
    refine ⟨rfl, by trivial, ?_, ?_⟩
    · rw [hc]
      rfl
    · rw [hc]

/-- Witness for C9 on the three-backend pool with selection 0. -/
theorem C9_next_round_robin_witness :
    (GeminiClientsManager.next_client threePool).1.current_model_index =
        some (nextIndex threePool) ∧
    (GeminiClientsManager.next_client threePool).1.clients = threePool.clients ∧
    (threePool.clients.get? (nextIndex threePool).toNat).isSome = true ∧
    (GeminiClientsManager.next_client threePool).2 =
      Except.ok (threePool.clients.get? (nextIndex threePool).toNat) :=
  C9_next_round_robin threePool (by decide)

/-- Claim C10: on a pool constructed with zero backends the initial selection
is none, and `next_client` fails with an unhandled runtime error rather than
returning a none result: an `IndexError` when the selection was none, a
`ZeroDivisionError` from `(current + 1) % 0` when a selection exists. -/
theorem C10_next_empty_pool :
    (GeminiClientsManager.ofClients []).current_model_index = none ∧
    (∀ m : GeminiClientsManager, m.clients = [] → m.current_model_index = none →
        (GeminiClientsManager.next_client m).2 = Except.error PyError.indexError) ∧
    (∀ (m : GeminiClientsManager) (c : Int), m.clients = [] →
        m.current_model_index = some c →
        (GeminiClientsManager.next_client m).2 = Except.error PyError.zeroDivisionError) := by
  refine ⟨rfl, ?_, ?_⟩
  · intro m h1 h2
    have hp : pyListGet ({ m with current_model_index := some (0 : Int) } :
        GeminiClientsManager).clients 0 = none := by
      show pyListGet m.clients 0 = none
      rw [h1]
      rfl
    have hcl := GeminiClientsManager.client_none_none_oob
      { m with current_model_index := some 0 } 0 rfl hp
    simp only [GeminiClientsManager.next_client, h2, hcl]
  · intro m c h1 h2
    have hlen : m.clients.length = 0 := by
      rw [h1]
      rfl
    simp only [GeminiClientsManager.next_client, h2, if_pos hlen]

/-- Witness for C10 on concrete empty-pool states. -/
theorem C10_next_empty_pool_witness :
    (GeminiClientsManager.next_client ⟨[], none⟩).2 = Except.error PyError.indexError ∧
    (GeminiClientsManager.next_client ⟨[], some 2⟩).2 = Except.error PyError.zeroDivisionError :=
  ⟨C10_next_empty_pool.2.1 ⟨[], none⟩ rfl rfl,
    C10_next_empty_pool.2.2 ⟨[], some 2⟩ 2 rfl rfl⟩

end PyGPTs
